import Mathlib

/-!
Verification development for the task/project management API
(`app.py`, `schemas.py`, `banco_projetos.py`).

The request-serving path is embedded shallowly:
  * request bodies are association lists of JSON-like values;
  * each marshmallow schema (`ProjetoSchema`, `TarefaSchema`, `UsuarioSchema`)
    becomes a `load` function returning either a field→messages error map or
    the loaded record (marshmallow 3 semantics: `dump_only` fields supplied on
    load are unknown fields, and unknown fields are rejected);
  * the SQLite database becomes a record of three row lists with
    AUTOINCREMENT counters;
  * each Flask handler becomes a function from database state, request data
    and a flag saying whether the store rejects the executed statement, to a
    result carrying the HTTP outcome, the new database state, the number of
    connections opened, the tables targeted by executed statements, and the
    log lines written by the handler.
-/

/-- JSON-like values appearing in request bodies and rows. -/
inductive JVal where
  | jstr (s : String)
  | jint (n : Int)
  | jnull
deriving DecidableEq, Repr

/-- A parsed JSON object body: an association list of keys to values. -/
abbrev Jobj := List (String × JVal)

/-- Dictionary lookup on a parsed body (first matching key). -/
def lookupJ : Jobj → String → Option JVal
  | [], _ => none
  | (k, v) :: rest, key => if k = key then some v else lookupJ rest key

/-- Error map produced by a failed schema load: field name → messages. -/
abbrev Errs := List (String × List String)

/-- Outcome of deserializing one declared field from the body. -/
inductive FR where
  | ok (v : JVal)
  | absent
  | errs (ms : List String)
deriving DecidableEq, Repr

/-- Numeric value of a decimal digit character. -/
def digitVal (c : Char) : Nat := c.toNat - 48

/-- Days in a month of a given year (proleptic Gregorian, as Python date). -/
def daysInMonth (year month : Nat) : Nat :=
  if month = 2 then
    if year % 4 = 0 ∧ (year % 100 ≠ 0 ∨ year % 400 = 0) then 29 else 28
  else if month = 4 ∨ month = 6 ∨ month = 9 ∨ month = 11 then 30
  else 31

/-- ISO `YYYY-MM-DD` date check, following `datetime.date.fromisoformat`
as used by `fields.Date()` with the default iso format. -/
def isIsoDate (s : String) : Bool :=
  match s.toList with
  | [y1, y2, y3, y4, '-', m1, m2, '-', d1, d2] =>
    if (y1.isDigit ∧ y2.isDigit ∧ y3.isDigit ∧ y4.isDigit ∧
        m1.isDigit ∧ m2.isDigit ∧ d1.isDigit ∧ d2.isDigit : Bool) then
      let y := ((digitVal y1 * 10 + digitVal y2) * 10 + digitVal y3) * 10 + digitVal y4
      let m := digitVal m1 * 10 + digitVal m2
      let d := digitVal d1 * 10 + digitVal d2
      decide (1 ≤ y ∧ 1 ≤ m ∧ m ≤ 12 ∧ 1 ≤ d ∧ d ≤ daysInMonth y m)
    else false
  | _ => false

/-- Characters allowed in the local part of an email address.
Modelled from marshmallow `validate.Email`'s dot-atom user regex,
simplified: the quoted-string form and a few rare punctuation characters
are not modelled. -/
def isUserChar (c : Char) : Bool :=
  c.isAlphanum ||
    c ∈ ['-', '!', '#', '$', '%', '&', '*', '+', '/', '=', '?', '^', '_', '|', '~', '.']

/-- Splits a character list at the LAST occurrence of the given character,
returning the parts before and after it; `none` when absent. Mirrors
Python `value.rsplit(sep, 1)`. -/
def splitAtLast (sep : Char) : List Char → Option (List Char × List Char)
  | [] => none
  | c :: cs =>
    match splitAtLast sep cs with
    | some (u, d) => some (c :: u, d)
    | none => if c = sep then some ([], cs) else none

/-- One hostname label: nonempty, alphanumeric or hyphen, neither starting
nor ending with a hyphen. -/
def isHostLabel (cs : List Char) : Bool :=
  match cs with
  | [] => false
  | _ => cs.all (fun c => c.isAlphanum || c = '-') &&
         (cs.head?.all (·.isAlphanum)) && (cs.getLast?.all (·.isAlphanum))

/-- Splits a character list at every dot, as Python `value.split(sep)`:
the empty input yields one empty part. -/
def splitLabels : List Char → List (List Char)
  | [] => [[]]
  | c :: cs =>
    if c = '.' then [] :: splitLabels cs
    else match splitLabels cs with
      | [] => [[c]]
      | l :: ls => (c :: l) :: ls

/-- Email format check, modelled from marshmallow `validate.Email`:
split at the last `@`; the user part is a nonempty run of dot-atom
characters; the domain is `localhost` or at least two hostname labels
whose last label is alphabetic of length at least two. IP-literal domains
and quoted-string user parts are not modelled. -/
def isValidEmail (s : String) : Bool :=
  match splitAtLast '@' s.toList with
  | none => false
  | some (user, domain) =>
    (!user.isEmpty && user.all isUserChar) &&
    (domain = "localhost".toList ||
      (let labels := splitLabels domain
       labels.length ≥ 2 &&
       labels.all isHostLabel &&
       (match labels.getLast? with
        | some tld => tld.length ≥ 2 && tld.all Char.isAlpha
        | none => false)))

/-- The `validate.Length(min=1, max=255)` validator. -/
def length1to255 (s : String) : List String :=
  if 1 ≤ s.length ∧ s.length ≤ 255 then []
  else ["Length must be between 1 and 255."]

/-- The `validate.Length(min=6)` validator (no maximum). -/
def lengthMin6 (s : String) : List String :=
  if 6 ≤ s.length then []
  else ["Shorter than minimum length 6."]

/-- The `validate.OneOf` validator over a fixed allowed set
(case-sensitive exact match). -/
def oneOf (choices : List String) (s : String) : List String :=
  if s ∈ choices then []
  else ["Must be one of: " ++ String.intercalate ", " choices ++ "."]

/-- Deserializes a `fields.String` value: required-field check, then the
value must be a JSON string, then the attached validators run. -/
def desString (required : Bool) (vals : String → List String) : Option JVal → FR
  | none => if required then .errs ["Missing data for required field."] else .absent
  | some (.jstr s) => match vals s with
    | [] => .ok (.jstr s)
    | ms => .errs ms
  | some _ => .errs ["Not a valid string."]

/-- Deserializes a `fields.Date()` value (optional in every schema here):
the value must be a string in ISO date format; it is kept as that string. -/
def desDate : Option JVal → FR
  | none => .absent
  | some (.jstr s) => if isIsoDate s then .ok (.jstr s) else .errs ["Not a valid date."]
  | some _ => .errs ["Not a valid date."]

/-- Deserializes a `fields.Integer()` value (optional in every schema here):
a JSON integer, or a string parsing as one, as Python `int(value)`. -/
def desInt : Option JVal → FR
  | none => .absent
  | some (.jint n) => .ok (.jint n)
  | some (.jstr s) => match s.toInt? with
    | some n => .ok (.jint n)
    | none => .errs ["Not a valid integer."]
  | some _ => .errs ["Not a valid integer."]

/-- Deserializes a `fields.Email(required=True)` value: a string matching
the email grammar. -/
def desEmail (required : Bool) : Option JVal → FR
  | none => if required then .errs ["Missing data for required field."] else .absent
  | some (.jstr s) => if isValidEmail s then .ok (.jstr s)
                      else .errs ["Not a valid email address."]
  | some _ => .errs ["Not a valid email address."]

/-- Loaded-record entry contributed by one field result. -/
def fieldEntry (key : String) : FR → Jobj
  | .ok v => [(key, v)]
  | _ => []

/-- Error-map entry contributed by one field result. -/
def fieldErrs (key : String) : FR → Errs
  | .errs ms => [(key, ms)]
  | _ => []

/-- Unknown-field errors: every body key outside the schema's load fields is
rejected with `Unknown field.` (marshmallow 3 default `unknown = RAISE`;
the `dump_only` field `id` is not a load field, so a client-supplied `id`
lands here). -/
def unknownErrs : Jobj → List String → Errs
  | [], _ => []
  | (k, _) :: rest, known =>
    if known.contains k then unknownErrs rest known
    else (k, ["Unknown field."]) :: unknownErrs rest known

/-- Error map collected by `ProjetoSchema().load`: `nome` required with
length 1–255, `descricao` optional string, `data_inicio` and `data_fim`
optional dates, `id` dump-only (hence unknown on load). -/
def projetoErrs (body : Jobj) : Errs :=
  fieldErrs "nome" (desString true (length1to255) (lookupJ body "nome")) ++
  fieldErrs "descricao" (desString false (fun _ => []) (lookupJ body "descricao")) ++
  fieldErrs "data_inicio" (desDate (lookupJ body "data_inicio")) ++
  fieldErrs "data_fim" (desDate (lookupJ body "data_fim")) ++
  unknownErrs body ["nome", "descricao", "data_inicio", "data_fim"]

/-- Loaded record built by `ProjetoSchema().load` when no error occurs:
only the fields present in the body appear. -/
def projetoData (body : Jobj) : Jobj :=
  fieldEntry "nome" (desString true (length1to255) (lookupJ body "nome")) ++
  fieldEntry "descricao" (desString false (fun _ => []) (lookupJ body "descricao")) ++
  fieldEntry "data_inicio" (desDate (lookupJ body "data_inicio")) ++
  fieldEntry "data_fim" (desDate (lookupJ body "data_fim"))

/-- Embedding of `ProjetoSchema().load`. -/
def projetoLoad (body : Jobj) : Except Errs Jobj :=
  if (projetoErrs body).isEmpty then .ok (projetoData body)
  else .error (projetoErrs body)

/-- Error map collected by `TarefaSchema().load`: `titulo` required with
length 1–255, `descricao` optional, `status` and `prioridade` enumerations,
optional `data_vencimento` date and integer `projeto_id`, `responsavel_id`. -/
def tarefaErrs (body : Jobj) : Errs :=
  fieldErrs "titulo" (desString true (length1to255) (lookupJ body "titulo")) ++
  fieldErrs "descricao" (desString false (fun _ => []) (lookupJ body "descricao")) ++
  fieldErrs "status" (desString false (oneOf ["Pendente", "Em andamento", "Concluída"])
    (lookupJ body "status")) ++
  fieldErrs "prioridade" (desString false (oneOf ["Baixa", "Média", "Alta"])
    (lookupJ body "prioridade")) ++
  fieldErrs "data_vencimento" (desDate (lookupJ body "data_vencimento")) ++
  fieldErrs "projeto_id" (desInt (lookupJ body "projeto_id")) ++
  fieldErrs "responsavel_id" (desInt (lookupJ body "responsavel_id")) ++
  unknownErrs body ["titulo", "descricao", "status", "prioridade",
                    "data_vencimento", "projeto_id", "responsavel_id"]

/-- Loaded record built by `TarefaSchema().load` when no error occurs. -/
def tarefaData (body : Jobj) : Jobj :=
  fieldEntry "titulo" (desString true (length1to255) (lookupJ body "titulo")) ++
  fieldEntry "descricao" (desString false (fun _ => []) (lookupJ body "descricao")) ++
  fieldEntry "status" (desString false (oneOf ["Pendente", "Em andamento", "Concluída"])
    (lookupJ body "status")) ++
  fieldEntry "prioridade" (desString false (oneOf ["Baixa", "Média", "Alta"])
    (lookupJ body "prioridade")) ++
  fieldEntry "data_vencimento" (desDate (lookupJ body "data_vencimento")) ++
  fieldEntry "projeto_id" (desInt (lookupJ body "projeto_id")) ++
  fieldEntry "responsavel_id" (desInt (lookupJ body "responsavel_id"))

/-- Embedding of `TarefaSchema().load`. -/
def tarefaLoad (body : Jobj) : Except Errs Jobj :=
  if (tarefaErrs body).isEmpty then .ok (tarefaData body)
  else .error (tarefaErrs body)

/-- Error map collected by `UsuarioSchema().load`: `nome` required with
length 1–255, `email` required in email format, `senha` required with
minimum length 6. -/
def usuarioErrs (body : Jobj) : Errs :=
  fieldErrs "nome" (desString true (length1to255) (lookupJ body "nome")) ++
  fieldErrs "email" (desEmail true (lookupJ body "email")) ++
  fieldErrs "senha" (desString true (lengthMin6) (lookupJ body "senha")) ++
  unknownErrs body ["nome", "email", "senha"]

/-- Loaded record built by `UsuarioSchema().load` when no error occurs. -/
def usuarioData (body : Jobj) : Jobj :=
  fieldEntry "nome" (desString true (length1to255) (lookupJ body "nome")) ++
  fieldEntry "email" (desEmail true (lookupJ body "email")) ++
  fieldEntry "senha" (desString true (lengthMin6) (lookupJ body "senha"))

/-- Embedding of `UsuarioSchema().load`. -/
def usuarioLoad (body : Jobj) : Except Errs Jobj :=
  if (usuarioErrs body).isEmpty then .ok (usuarioData body)
  else .error (usuarioErrs body)

/-- A row of `TB_PROJETOS` (schema from `banco_projetos.py`): auto id plus
the four bound columns of the INSERT in `criar_projeto`. -/
structure ProjetoRow where
  id : Nat
  nome : JVal
  descricao : JVal
  data_inicio : JVal
  data_fim : JVal
deriving DecidableEq, Repr

/-- A row of `TB_TAREFAS`. -/
structure TarefaRow where
  id : Nat
  titulo : JVal
  descricao : JVal
  status : JVal
  prioridade : JVal
  data_vencimento : JVal
  projeto_id : JVal
  responsavel_id : JVal
deriving DecidableEq, Repr

/-- A row of `TB_USUARIOS`. -/
structure UsuarioRow where
  id : Nat
  nome : JVal
  email : JVal
  senha : JVal
deriving DecidableEq, Repr

/-- The SQLite database `database.db`: three tables, each with its
AUTOINCREMENT counter holding the next id to assign. -/
structure DB where
  projetos : List ProjetoRow
  tarefas : List TarefaRow
  usuarios : List UsuarioRow
  seqProjetos : Nat
  seqTarefas : Nat
  seqUsuarios : Nat
deriving DecidableEq, Repr

/-- A freshly bootstrapped database: empty tables, ids starting at 1. -/
def dbEmpty : DB := ⟨[], [], [], 1, 1, 1⟩

/-- The three tables, used to record which table each executed SQL
statement targets. -/
inductive Tabela where
  | TB_PROJETOS
  | TB_TAREFAS
  | TB_USUARIOS
deriving DecidableEq, Repr

/-- Row-to-map serialization of a project row, as `dict(projeto)` over
`SELECT *` with columns in table order. -/
def projetoToMap (r : ProjetoRow) : Jobj :=
  [("id", .jint r.id), ("nome", r.nome), ("descricao", r.descricao),
   ("data_inicio", r.data_inicio), ("data_fim", r.data_fim)]

/-- Row-to-map serialization of a task row. -/
def tarefaToMap (r : TarefaRow) : Jobj :=
  [("id", .jint r.id), ("titulo", r.titulo), ("descricao", r.descricao),
   ("status", r.status), ("prioridade", r.prioridade),
   ("data_vencimento", r.data_vencimento), ("projeto_id", r.projeto_id),
   ("responsavel_id", r.responsavel_id)]

/-- Row-to-map serialization of a user row. -/
def usuarioToMap (r : UsuarioRow) : Jobj :=
  [("id", .jint r.id), ("nome", r.nome), ("email", r.email), ("senha", r.senha)]

/-- Response bodies produced by the handlers: a `mensagem` object, a
validation error map, or an array of row maps. -/
inductive RespBody where
  | msg (m : String)
  | errs (e : Errs)
  | arr (rows : List Jobj)
deriving DecidableEq, Repr

/-- What a handler invocation yields at the HTTP level: a response built by
the handler itself, or an exception escaping the handler (which Flask turns
into its own default error page, not a handler-built body). -/
inductive Outcome where
  | resp (status : Nat) (body : RespBody)
  | crash (exn : String)
deriving DecidableEq, Repr

/-- HTTP status of an outcome, when the handler built a response itself. -/
def statusOf : Outcome → Option Nat
  | .resp s _ => some s
  | .crash _ => none

/-- Lines written through `logging.error` by the handler code itself. -/
inductive LogLine where
  | validationError (e : Errs)
  | dbError (msg : String)
deriving DecidableEq, Repr

/-- Result of running one handler: outcome, resulting database, number of
`get_db_connection()` calls, tables targeted by executed SQL statements,
and handler-written log lines. -/
structure HResult where
  outcome : Outcome
  db : DB
  conns : Nat
  stmts : List Tabela
  logged : List LogLine
deriving DecidableEq, Repr

/-- The bound-value tuple of `criar_projeto`/`atualizar_projeto`:
`(dados['nome'], dados['descricao'], dados['data_inicio'], dados['data_fim'])`.
Evaluated before the statement runs; a missing key raises `KeyError`. -/
def projetoVals (dados : Jobj) : Option (JVal × JVal × JVal × JVal) := do
  let vn ← lookupJ dados "nome"
  let vd ← lookupJ dados "descricao"
  let vi ← lookupJ dados "data_inicio"
  let vf ← lookupJ dados "data_fim"
  pure (vn, vd, vi, vf)

/-- The bound-value tuple of `criar_tarefa`/`atualizar_tarefa`. -/
def tarefaVals (dados : Jobj) :
    Option (JVal × JVal × JVal × JVal × JVal × JVal × JVal) := do
  let vt ← lookupJ dados "titulo"
  let vd ← lookupJ dados "descricao"
  let vs ← lookupJ dados "status"
  let vp ← lookupJ dados "prioridade"
  let vv ← lookupJ dados "data_vencimento"
  let vpr ← lookupJ dados "projeto_id"
  let vr ← lookupJ dados "responsavel_id"
  pure (vt, vd, vs, vp, vv, vpr, vr)

/-- The bound-value tuple of `criar_usuario`/`atualizar_usuario`; these two
handlers rebind `dados = request.get_json()` and read the RAW body. -/
def usuarioVals (dados : Jobj) : Option (JVal × JVal × JVal) := do
  let vn ← lookupJ dados "nome"
  let ve ← lookupJ dados "email"
  let vs ← lookupJ dados "senha"
  pure (vn, ve, vs)

/-- Handler `GET /projetos`: `SELECT * FROM TB_PROJETOS`, serialized row by
row. No try/except, so a store failure escapes the handler. -/
def listar_projetos (db : DB) (dbFail : Bool) : HResult :=
  if dbFail then ⟨.crash "sqlite3.Error", db, 1, [.TB_PROJETOS], []⟩
  else ⟨.resp 200 (.arr (db.projetos.map projetoToMap)), db, 1, [.TB_PROJETOS], []⟩

/-- Handler `POST /projetos`. The `except sqlite3.Error` clause guards only
`schema.load`, which cannot raise it; the INSERT runs outside the try, so
a store failure there escapes uncaught. The bound tuple is built after the
connection opens; a loaded record missing an optional key raises `KeyError`. -/
def criar_projeto (db : DB) (body : Jobj) (dbFail : Bool) : HResult :=
  match projetoLoad body with
  | .error errs => ⟨.resp 400 (.errs errs), db, 0, [], [.validationError errs]⟩
  | .ok dados =>
    match projetoVals dados with
    | none => ⟨.crash "KeyError", db, 1, [], []⟩
    | some (vn, vd, vi, vf) =>
      if dbFail then ⟨.crash "sqlite3.Error", db, 1, [.TB_PROJETOS], []⟩
      else ⟨.resp 201 (.msg "Projeto criado com sucesso!"),
            { db with projetos := db.projetos ++ [⟨db.seqProjetos, vn, vd, vi, vf⟩],
                      seqProjetos := db.seqProjetos + 1 },
            1, [.TB_PROJETOS], []⟩

/-- Handler `PUT /projetos/<id>`: same validation as create, then
`UPDATE TB_PROJETOS SET ... WHERE id = ?` (a silent no-op when no row
matches). -/
def atualizar_projeto (db : DB) (id : Nat) (body : Jobj) (dbFail : Bool) : HResult :=
  match projetoLoad body with
  | .error errs => ⟨.resp 400 (.errs errs), db, 0, [], [.validationError errs]⟩
  | .ok dados =>
    match projetoVals dados with
    | none => ⟨.crash "KeyError", db, 1, [], []⟩
    | some (vn, vd, vi, vf) =>
      if dbFail then ⟨.crash "sqlite3.Error", db, 1, [.TB_PROJETOS], []⟩
      else ⟨.resp 200 (.msg "Projeto atualizado com sucesso!"),
            { db with projetos := db.projetos.map (fun r =>
                if r.id = id then { r with nome := vn, descricao := vd,
                                           data_inicio := vi, data_fim := vf }
                else r) },
            1, [.TB_PROJETOS], []⟩

/-- Handler `DELETE /projetos/<id>`: no body, no validation,
`DELETE FROM TB_PROJETOS WHERE id = ?` (a silent no-op when no row
matches). -/
def excluir_projeto (db : DB) (id : Nat) (dbFail : Bool) : HResult :=
  if dbFail then ⟨.crash "sqlite3.Error", db, 1, [.TB_PROJETOS], []⟩
  else ⟨.resp 200 (.msg "Projeto excluído com sucesso!"),
        { db with projetos := db.projetos.filter (fun r => r.id ≠ id) },
        1, [.TB_PROJETOS], []⟩

/-- Handler `GET /tarefas`. -/
def listar_tarefas (db : DB) (dbFail : Bool) : HResult :=
  if dbFail then ⟨.crash "sqlite3.Error", db, 1, [.TB_TAREFAS], []⟩
  else ⟨.resp 200 (.arr (db.tarefas.map tarefaToMap)), db, 1, [.TB_TAREFAS], []⟩

/-- Handler `POST /tarefas`: validate with `TarefaSchema`, then INSERT the
seven bound columns (outside the try, as in `criar_projeto`). -/
def criar_tarefa (db : DB) (body : Jobj) (dbFail : Bool) : HResult :=
  match tarefaLoad body with
  | .error errs => ⟨.resp 400 (.errs errs), db, 0, [], [.validationError errs]⟩
  | .ok dados =>
    match tarefaVals dados with
    | none => ⟨.crash "KeyError", db, 1, [], []⟩
    | some (vt, vd, vs, vp, vv, vpr, vr) =>
      if dbFail then ⟨.crash "sqlite3.Error", db, 1, [.TB_TAREFAS], []⟩
      else ⟨.resp 201 (.msg "Tarefa criada com sucesso!"),
            { db with tarefas := db.tarefas ++
                [⟨db.seqTarefas, vt, vd, vs, vp, vv, vpr, vr⟩],
                      seqTarefas := db.seqTarefas + 1 },
            1, [.TB_TAREFAS], []⟩

/-- Handler `PUT /tarefas/<id>`. -/
def atualizar_tarefa (db : DB) (id : Nat) (body : Jobj) (dbFail : Bool) : HResult :=
  match tarefaLoad body with
  | .error errs => ⟨.resp 400 (.errs errs), db, 0, [], [.validationError errs]⟩
  | .ok dados =>
    match tarefaVals dados with
    | none => ⟨.crash "KeyError", db, 1, [], []⟩
    | some (vt, vd, vs, vp, vv, vpr, vr) =>
      if dbFail then ⟨.crash "sqlite3.Error", db, 1, [.TB_TAREFAS], []⟩
      else ⟨.resp 200 (.msg "Tarefa atualizada com sucesso!"),
            { db with tarefas := db.tarefas.map (fun r =>
                if r.id = id then
                  { r with titulo := vt, descricao := vd, status := vs,
                           prioridade := vp, data_vencimento := vv,
                           projeto_id := vpr, responsavel_id := vr }
                else r) },
            1, [.TB_TAREFAS], []⟩

/-- Handler `DELETE /tarefas/<id>`. -/
def excluir_tarefa (db : DB) (id : Nat) (dbFail : Bool) : HResult :=
  if dbFail then ⟨.crash "sqlite3.Error", db, 1, [.TB_TAREFAS], []⟩
  else ⟨.resp 200 (.msg "Tarefa excluída com sucesso!"),
        { db with tarefas := db.tarefas.filter (fun r => r.id ≠ id) },
        1, [.TB_TAREFAS], []⟩

/-- Handler `GET /usuarios`. -/
def listar_usuarios (db : DB) (dbFail : Bool) : HResult :=
  if dbFail then ⟨.crash "sqlite3.Error", db, 1, [.TB_USUARIOS], []⟩
  else ⟨.resp 200 (.arr (db.usuarios.map usuarioToMap)), db, 1, [.TB_USUARIOS], []⟩

/-- Handler `POST /usuarios`: validate with `UsuarioSchema`, then rebind
`dados = request.get_json()` and INSERT the three raw body values (outside
the try: a UNIQUE-email violation escapes uncaught). -/
def criar_usuario (db : DB) (body : Jobj) (dbFail : Bool) : HResult :=
  match usuarioLoad body with
  | .error errs => ⟨.resp 400 (.errs errs), db, 0, [], [.validationError errs]⟩
  | .ok _ =>
    match usuarioVals body with
    | none => ⟨.crash "KeyError", db, 1, [], []⟩
    | some (vn, ve, vs) =>
      if dbFail then ⟨.crash "sqlite3.Error", db, 1, [.TB_USUARIOS], []⟩
      else ⟨.resp 201 (.msg "Usuário criado com sucesso!"),
            { db with usuarios := db.usuarios ++ [⟨db.seqUsuarios, vn, ve, vs⟩],
                      seqUsuarios := db.seqUsuarios + 1 },
            1, [.TB_USUARIOS], []⟩

/-- Handler `PUT /usuarios/<id>`: also reads the raw body after validation. -/
def atualizar_usuario (db : DB) (id : Nat) (body : Jobj) (dbFail : Bool) : HResult :=
  match usuarioLoad body with
  | .error errs => ⟨.resp 400 (.errs errs), db, 0, [], [.validationError errs]⟩
  | .ok _ =>
    match usuarioVals body with
    | none => ⟨.crash "KeyError", db, 1, [], []⟩
    | some (vn, ve, vs) =>
      if dbFail then ⟨.crash "sqlite3.Error", db, 1, [.TB_USUARIOS], []⟩
      else ⟨.resp 200 (.msg "Usuário atualizado com sucesso!"),
            { db with usuarios := db.usuarios.map (fun r =>
                if r.id = id then { r with nome := vn, email := ve, senha := vs }
                else r) },
            1, [.TB_USUARIOS], []⟩

/-- Handler `DELETE /usuarios/<id>`. -/
def excluir_usuario (db : DB) (id : Nat) (dbFail : Bool) : HResult :=
  if dbFail then ⟨.crash "sqlite3.Error", db, 1, [.TB_USUARIOS], []⟩
  else ⟨.resp 200 (.msg "Usuário excluído com sucesso!"),
        { db with usuarios := db.usuarios.filter (fun r => r.id ≠ id) },
        1, [.TB_USUARIOS], []⟩

/-- One of the four CRUD operations, with its request data. -/
inductive Op where
  | listar
  | criar (body : Jobj)
  | atualizar (id : Nat) (body : Jobj)
  | excluir (id : Nat)

/-- Routes a (table, operation) pair to its handler, covering all twelve
entity endpoints of `app.py`. -/
def dispatch (db : DB) (dbFail : Bool) : Tabela → Op → HResult
  | .TB_PROJETOS, .listar => listar_projetos db dbFail
  | .TB_PROJETOS, .criar body => criar_projeto db body dbFail
  | .TB_PROJETOS, .atualizar id body => atualizar_projeto db id body dbFail
  | .TB_PROJETOS, .excluir id => excluir_projeto db id dbFail
  | .TB_TAREFAS, .listar => listar_tarefas db dbFail
  | .TB_TAREFAS, .criar body => criar_tarefa db body dbFail
  | .TB_TAREFAS, .atualizar id body => atualizar_tarefa db id body dbFail
  | .TB_TAREFAS, .excluir id => excluir_tarefa db id dbFail
  | .TB_USUARIOS, .listar => listar_usuarios db dbFail
  | .TB_USUARIOS, .criar body => criar_usuario db body dbFail
  | .TB_USUARIOS, .atualizar id body => atualizar_usuario db id body dbFail
  | .TB_USUARIOS, .excluir id => excluir_usuario db id dbFail

/-- The schema load used by the create and update handlers of a table. -/
def loadOf : Tabela → Jobj → Except Errs Jobj
  | .TB_PROJETOS => projetoLoad
  | .TB_TAREFAS => tarefaLoad
  | .TB_USUARIOS => usuarioLoad

/-- The named table's contents are the same in both database states. -/
def tableUnchanged (t : Tabela) (db db' : DB) : Prop :=
  match t with
  | .TB_PROJETOS => db'.projetos = db.projetos
  | .TB_TAREFAS => db'.tarefas = db.tarefas
  | .TB_USUARIOS => db'.usuarios = db.usuarios

/-- The example project payload of the spec and of `test_criar_projeto`. -/
def exProjetoBody : Jobj :=
  [("nome", .jstr "P1"), ("descricao", .jstr "d"),
   ("data_inicio", .jstr "2024-01-01"), ("data_fim", .jstr "2024-02-01")]

/-- A well-formed user payload (as in `test_criar_usuario`). -/
def exUsuarioBody : Jobj :=
  [("nome", .jstr "Ana Silva"), ("email", .jstr "ana@example.com"),
   ("senha", .jstr "secret1")]

/-- The spec's two-defect user payload: malformed email and short password. -/
def exUsuarioBadBody : Jobj :=
  [("nome", .jstr "A"), ("email", .jstr "not-an-email"), ("senha", .jstr "123")]

/-! Helper lemmas about the embedding. -/

lemma isEmpty_eq_false_of_mem {α : Type} {a : α} {l : List α} (h : a ∈ l) :
    l.isEmpty = false := by
  cases l with
  | nil => cases h
  | cons b t => rfl

lemma filter_idem {α : Type} (p : α → Bool) (l : List α) :
    (l.filter p).filter p = l.filter p := by
  induction l with
  | nil => rfl
  | cons a t ih => by_cases h : p a <;> simp [List.filter_cons, h, ih]

/-- Updating by id is a no-op on a table not containing the id. -/
lemma map_ite_id {α β : Type} [DecidableEq β] {l : List α} {key : α → β} {i : β}
    (g : α → α) (h : i ∉ l.map key) :
    l.map (fun r => if key r = i then g r else r) = l := by
  induction l with
  | nil => rfl
  | cons a t ih =>
    simp only [List.map_cons, List.mem_cons] at h
    push_neg at h
    rw [List.map_cons, if_neg (fun hk => h.1 hk.symm), ih h.2]

/-- Deleting by id is a no-op on a table not containing the id. -/
lemma filter_ne_id {α β : Type} [DecidableEq β] {l : List α} {key : α → β} {i : β}
    (h : i ∉ l.map key) :
    l.filter (fun r => key r ≠ i) = l := by
  induction l with
  | nil => rfl
  | cons a t ih =>
    simp only [List.map_cons, List.mem_cons] at h
    push_neg at h
    simp only [List.filter_cons]
    rw [if_pos (by simpa using fun hk => h.1 hk.symm), ih h.2]

/-- A body key outside the schema's load fields contributes an
`Unknown field.` error. -/
lemma mem_unknownErrs {body : Jobj} {k : String} {v : JVal} (known : List String)
    (h : lookupJ body k = some v) (hk : known.contains k = false) :
    (k, ["Unknown field."]) ∈ unknownErrs body known := by
  induction body with
  | nil => cases h
  | cons kv rest ih =>
    obtain ⟨k1, v1⟩ := kv
    rw [lookupJ] at h
    simp only [unknownErrs]
    by_cases hkk : k1 = k
    · subst hkk
      rw [if_neg (by rw [hk]; exact Bool.false_ne_true)]
      exact List.mem_cons_self _ _
    · rw [if_neg hkk] at h
      by_cases hc : known.contains k1 = true
      · rw [if_pos hc]; exact ih h
      · rw [if_neg hc]; exact List.mem_cons_of_mem _ (ih h)

/-- A body with no `id` key contributes no `id`-keyed unknown error. -/
lemma not_mem_unknownErrs {body : Jobj} {k : String} (known : List String)
    (h : lookupJ body k = none) (ms : List String) :
    (k, ms) ∉ unknownErrs body known := by
  induction body with
  | nil => simp [unknownErrs]
  | cons kv rest ih =>
    obtain ⟨k1, v1⟩ := kv
    rw [lookupJ] at h
    simp only [unknownErrs]
    by_cases hkk : k1 = k
    · rw [if_pos hkk] at h; cases h
    · rw [if_neg hkk] at h
      by_cases hc : known.contains k1 = true
      · rw [if_pos hc]; exact ih h
      · rw [if_neg hc]
        intro hmem
        rcases List.mem_cons.mp hmem with heq | hmem2
        · injection heq with h1 h2; exact hkk h1.symm
        · exact ih h hmem2

lemma desString_ok {req : Bool} {vals : String → List String} {o : Option JVal}
    {v : JVal} (h : desString req vals o = .ok v) : o = some v := by
  match o with
  | none => cases req <;> simp [desString] at h
  | some (.jstr s) =>
    rw [desString] at h
    cases hv : vals s <;> rw [hv] at h <;> cases h
    rfl
  | some (.jint n) => cases h
  | some .jnull => cases h

lemma desString_true_ne_absent {vals : String → List String} {o : Option JVal}
    (h : desString true vals o = .absent) : False := by
  match o with
  | none => cases h
  | some (.jstr s) =>
    rw [desString] at h
    cases hv : vals s <;> rw [hv] at h <;> cases h
  | some (.jint n) => cases h
  | some .jnull => cases h

lemma desDate_ok {o : Option JVal} {v : JVal} (h : desDate o = .ok v) :
    o = some v := by
  match o with
  | none => cases h
  | some (.jstr s) =>
    rw [desDate] at h
    cases hd : isIsoDate s <;> rw [hd] at h <;> cases h
    rfl
  | some (.jint n) => cases h
  | some .jnull => cases h

lemma desEmail_ok {req : Bool} {o : Option JVal} {v : JVal}
    (h : desEmail req o = .ok v) : o = some v := by
  match o with
  | none => cases req <;> simp [desEmail] at h
  | some (.jstr s) =>
    rw [desEmail] at h
    cases hd : isValidEmail s <;> rw [hd] at h <;> cases h
    rfl
  | some (.jint n) => cases h
  | some .jnull => cases h

lemma lookupJ_append_some {a : Jobj} (b : Jobj) {k : String} {v : JVal}
    (h : lookupJ a k = some v) : lookupJ (a ++ b) k = some v := by
  induction a with
  | nil => cases h
  | cons kv rest ih =>
    rw [lookupJ] at h
    rw [List.cons_append, lookupJ]
    split at h <;> rename_i hk
    · rwa [if_pos hk]
    · rw [if_neg hk]; exact ih h

lemma lookupJ_append_none {a : Jobj} (b : Jobj) {k : String}
    (h : lookupJ a k = none) : lookupJ (a ++ b) k = lookupJ b k := by
  induction a with
  | nil => rfl
  | cons kv rest ih =>
    rw [lookupJ] at h
    rw [List.cons_append, lookupJ]
    split at h <;> rename_i hk
    · cases h
    · rw [if_neg hk]; exact ih h

lemma lookupJ_fieldEntry_ne {key k : String} (r : FR) (h : ¬ key = k) :
    lookupJ (fieldEntry key r) k = none := by
  cases r <;> simp [fieldEntry, lookupJ, h]

lemma lookupJ_fieldEntry_self (key : String) (r : FR) :
    lookupJ (fieldEntry key r) key =
      match r with | .ok v => some v | _ => none := by
  cases r <;> simp [fieldEntry, lookupJ]

/-! Per-handler facts: statements target only the handler's own table, the
other tables are untouched, and no handler ever builds a 404 response. -/

lemma listar_projetos_frame (db : DB) (f : Bool) :
    ((listar_projetos db f).stmts = [] ∨
     (listar_projetos db f).stmts = [.TB_PROJETOS]) ∧
    (listar_projetos db f).db.tarefas = db.tarefas ∧
    (listar_projetos db f).db.usuarios = db.usuarios ∧
    statusOf (listar_projetos db f).outcome ≠ some 404 := by
  cases f <;> simp [listar_projetos, statusOf]

lemma criar_projeto_frame (db : DB) (body : Jobj) (f : Bool) :
    ((criar_projeto db body f).stmts = [] ∨
     (criar_projeto db body f).stmts = [.TB_PROJETOS]) ∧
    (criar_projeto db body f).db.tarefas = db.tarefas ∧
    (criar_projeto db body f).db.usuarios = db.usuarios ∧
    statusOf (criar_projeto db body f).outcome ≠ some 404 := by
  cases hl : projetoLoad body with
  | error e => simp [criar_projeto, hl, statusOf]
  | ok dados =>
    cases hv : projetoVals dados with
    | none => simp [criar_projeto, hl, hv, statusOf]
    | some tu =>
      obtain ⟨vn, vd, vi, vf⟩ := tu
      cases f <;> simp [criar_projeto, hl, hv, statusOf]

lemma atualizar_projeto_frame (db : DB) (i : Nat) (body : Jobj) (f : Bool) :
    ((atualizar_projeto db i body f).stmts = [] ∨
     (atualizar_projeto db i body f).stmts = [.TB_PROJETOS]) ∧
    (atualizar_projeto db i body f).db.tarefas = db.tarefas ∧
    (atualizar_projeto db i body f).db.usuarios = db.usuarios ∧
    statusOf (atualizar_projeto db i body f).outcome ≠ some 404 := by
  cases hl : projetoLoad body with
  | error e => simp [atualizar_projeto, hl, statusOf]
  | ok dados =>
    cases hv : projetoVals dados with
    | none => simp [atualizar_projeto, hl, hv, statusOf]
    | some tu =>
      obtain ⟨vn, vd, vi, vf⟩ := tu
      cases f <;> simp [atualizar_projeto, hl, hv, statusOf]

lemma excluir_projeto_frame (db : DB) (i : Nat) (f : Bool) :
    ((excluir_projeto db i f).stmts = [] ∨
     (excluir_projeto db i f).stmts = [.TB_PROJETOS]) ∧
    (excluir_projeto db i f).db.tarefas = db.tarefas ∧
    (excluir_projeto db i f).db.usuarios = db.usuarios ∧
    statusOf (excluir_projeto db i f).outcome ≠ some 404 := by
  cases f <;> simp [excluir_projeto, statusOf]

lemma listar_tarefas_frame (db : DB) (f : Bool) :
    ((listar_tarefas db f).stmts = [] ∨
     (listar_tarefas db f).stmts = [.TB_TAREFAS]) ∧
    (listar_tarefas db f).db.projetos = db.projetos ∧
    (listar_tarefas db f).db.usuarios = db.usuarios ∧
    statusOf (listar_tarefas db f).outcome ≠ some 404 := by
  cases f <;> simp [listar_tarefas, statusOf]

lemma criar_tarefa_frame (db : DB) (body : Jobj) (f : Bool) :
    ((criar_tarefa db body f).stmts = [] ∨
     (criar_tarefa db body f).stmts = [.TB_TAREFAS]) ∧
    (criar_tarefa db body f).db.projetos = db.projetos ∧
    (criar_tarefa db body f).db.usuarios = db.usuarios ∧
    statusOf (criar_tarefa db body f).outcome ≠ some 404 := by
  cases hl : tarefaLoad body with
  | error e => simp [criar_tarefa, hl, statusOf]
  | ok dados =>
    cases hv : tarefaVals dados with
    | none => simp [criar_tarefa, hl, hv, statusOf]
    | some tu =>
      obtain ⟨vt, vd, vs, vp, vv, vpr, vr⟩ := tu
      cases f <;> simp [criar_tarefa, hl, hv, statusOf]

lemma atualizar_tarefa_frame (db : DB) (i : Nat) (body : Jobj) (f : Bool) :
    ((atualizar_tarefa db i body f).stmts = [] ∨
     (atualizar_tarefa db i body f).stmts = [.TB_TAREFAS]) ∧
    (atualizar_tarefa db i body f).db.projetos = db.projetos ∧
    (atualizar_tarefa db i body f).db.usuarios = db.usuarios ∧
    statusOf (atualizar_tarefa db i body f).outcome ≠ some 404 := by
  cases hl : tarefaLoad body with
  | error e => simp [atualizar_tarefa, hl, statusOf]
  | ok dados =>
    cases hv : tarefaVals dados with
    | none => simp [atualizar_tarefa, hl, hv, statusOf]
    | some tu =>
      obtain ⟨vt, vd, vs, vp, vv, vpr, vr⟩ := tu
      cases f <;> simp [atualizar_tarefa, hl, hv, statusOf]

lemma excluir_tarefa_frame (db : DB) (i : Nat) (f : Bool) :
    ((excluir_tarefa db i f).stmts = [] ∨
     (excluir_tarefa db i f).stmts = [.TB_TAREFAS]) ∧
    (excluir_tarefa db i f).db.projetos = db.projetos ∧
    (excluir_tarefa db i f).db.usuarios = db.usuarios ∧
    statusOf (excluir_tarefa db i f).outcome ≠ some 404 := by
  cases f <;> simp [excluir_tarefa, statusOf]

lemma listar_usuarios_frame (db : DB) (f : Bool) :
    ((listar_usuarios db f).stmts = [] ∨
     (listar_usuarios db f).stmts = [.TB_USUARIOS]) ∧
    (listar_usuarios db f).db.projetos = db.projetos ∧
    (listar_usuarios db f).db.tarefas = db.tarefas ∧
    statusOf (listar_usuarios db f).outcome ≠ some 404 := by
  cases f <;> simp [listar_usuarios, statusOf]

lemma criar_usuario_frame (db : DB) (body : Jobj) (f : Bool) :
    ((criar_usuario db body f).stmts = [] ∨
     (criar_usuario db body f).stmts = [.TB_USUARIOS]) ∧
    (criar_usuario db body f).db.projetos = db.projetos ∧
    (criar_usuario db body f).db.tarefas = db.tarefas ∧
    statusOf (criar_usuario db body f).outcome ≠ some 404 := by
  cases hl : usuarioLoad body with
  | error e => simp [criar_usuario, hl, statusOf]
  | ok dados =>
    cases hv : usuarioVals body with
    | none => simp [criar_usuario, hl, hv, statusOf]
    | some tu =>
      obtain ⟨vn, ve, vs⟩ := tu
      cases f <;> simp [criar_usuario, hl, hv, statusOf]

lemma atualizar_usuario_frame (db : DB) (i : Nat) (body : Jobj) (f : Bool) :
    ((atualizar_usuario db i body f).stmts = [] ∨
     (atualizar_usuario db i body f).stmts = [.TB_USUARIOS]) ∧
    (atualizar_usuario db i body f).db.projetos = db.projetos ∧
    (atualizar_usuario db i body f).db.tarefas = db.tarefas ∧
    statusOf (atualizar_usuario db i body f).outcome ≠ some 404 := by
  cases hl : usuarioLoad body with
  | error e => simp [atualizar_usuario, hl, statusOf]
  | ok dados =>
    cases hv : usuarioVals body with
    | none => simp [atualizar_usuario, hl, hv, statusOf]
    | some tu =>
      obtain ⟨vn, ve, vs⟩ := tu
      cases f <;> simp [atualizar_usuario, hl, hv, statusOf]

lemma excluir_usuario_frame (db : DB) (i : Nat) (f : Bool) :
    ((excluir_usuario db i f).stmts = [] ∨
     (excluir_usuario db i f).stmts = [.TB_USUARIOS]) ∧
    (excluir_usuario db i f).db.projetos = db.projetos ∧
    (excluir_usuario db i f).db.tarefas = db.tarefas ∧
    statusOf (excluir_usuario db i f).outcome ≠ some 404 := by
  cases f <;> simp [excluir_usuario, statusOf]

/-- Every routed request touches at most its own entity's table, leaves the
other two tables unchanged, and never yields a 404 response. -/
lemma dispatch_cases (t : Tabela) (op : Op) (db : DB) (f : Bool) :
    ((dispatch db f t op).stmts = [] ∨ (dispatch db f t op).stmts = [t]) ∧
    (∀ t2, t2 ≠ t → tableUnchanged t2 db (dispatch db f t op).db) ∧
    statusOf (dispatch db f t op).outcome ≠ some 404 := by
  cases t with
  | TB_PROJETOS =>
    cases op with
    | listar =>
      obtain ⟨hs, h1, h2, h4⟩ := listar_projetos_frame db f
      exact ⟨hs, fun t2 hne => by cases t2 <;>
        first | exact absurd rfl hne | exact h1 | exact h2, h4⟩
    | criar body =>
      obtain ⟨hs, h1, h2, h4⟩ := criar_projeto_frame db body f
      exact ⟨hs, fun t2 hne => by cases t2 <;>
        first | exact absurd rfl hne | exact h1 | exact h2, h4⟩
    | atualizar i body =>
      obtain ⟨hs, h1, h2, h4⟩ := atualizar_projeto_frame db i body f
      exact ⟨hs, fun t2 hne => by cases t2 <;>
        first | exact absurd rfl hne | exact h1 | exact h2, h4⟩
    | excluir i =>
      obtain ⟨hs, h1, h2, h4⟩ := excluir_projeto_frame db i f
      exact ⟨hs, fun t2 hne => by cases t2 <;>
        first | exact absurd rfl hne | exact h1 | exact h2, h4⟩
  | TB_TAREFAS =>
    cases op with
    | listar =>
      obtain ⟨hs, h1, h2, h4⟩ := listar_tarefas_frame db f
      exact ⟨hs, fun t2 hne => by cases t2 <;>
        first | exact absurd rfl hne | exact h1 | exact h2, h4⟩
    | criar body =>
      obtain ⟨hs, h1, h2, h4⟩ := criar_tarefa_frame db body f
      exact ⟨hs, fun t2 hne => by cases t2 <;>
        first | exact absurd rfl hne | exact h1 | exact h2, h4⟩
    | atualizar i body =>
      obtain ⟨hs, h1, h2, h4⟩ := atualizar_tarefa_frame db i body f
      exact ⟨hs, fun t2 hne => by cases t2 <;>
        first | exact absurd rfl hne | exact h1 | exact h2, h4⟩
    | excluir i =>
      obtain ⟨hs, h1, h2, h4⟩ := excluir_tarefa_frame db i f
      exact ⟨hs, fun t2 hne => by cases t2 <;>
        first | exact absurd rfl hne | exact h1 | exact h2, h4⟩
  | TB_USUARIOS =>
    cases op with
    | listar =>
      obtain ⟨hs, h1, h2, h4⟩ := listar_usuarios_frame db f
      exact ⟨hs, fun t2 hne => by cases t2 <;>
        first | exact absurd rfl hne | exact h1 | exact h2, h4⟩
    | criar body =>
      obtain ⟨hs, h1, h2, h4⟩ := criar_usuario_frame db body f
      exact ⟨hs, fun t2 hne => by cases t2 <;>
        first | exact absurd rfl hne | exact h1 | exact h2, h4⟩
    | atualizar i body =>
      obtain ⟨hs, h1, h2, h4⟩ := atualizar_usuario_frame db i body f
      exact ⟨hs, fun t2 hne => by cases t2 <;>
        first | exact absurd rfl hne | exact h1 | exact h2, h4⟩
    | excluir i =>
      obtain ⟨hs, h1, h2, h4⟩ := excluir_usuario_frame db i f
      exact ⟨hs, fun t2 hne => by cases t2 <;>
        first | exact absurd rfl hne | exact h1 | exact h2, h4⟩

/-! Schema-load characterization lemmas. -/

lemma projetoLoad_error_of_mem {body : Jobj} {p : String × List String}
    (h : p ∈ projetoErrs body) :
    projetoLoad body = .error (projetoErrs body) := by
  have he : (projetoErrs body).isEmpty = false := isEmpty_eq_false_of_mem h
  rw [projetoLoad, if_neg (by rw [he]; exact Bool.false_ne_true)]

lemma tarefaLoad_error_of_mem {body : Jobj} {p : String × List String}
    (h : p ∈ tarefaErrs body) :
    tarefaLoad body = .error (tarefaErrs body) := by
  have he : (tarefaErrs body).isEmpty = false := isEmpty_eq_false_of_mem h
  rw [tarefaLoad, if_neg (by rw [he]; exact Bool.false_ne_true)]

lemma usuarioLoad_error_of_mem {body : Jobj} {p : String × List String}
    (h : p ∈ usuarioErrs body) :
    usuarioLoad body = .error (usuarioErrs body) := by
  have he : (usuarioErrs body).isEmpty = false := isEmpty_eq_false_of_mem h
  rw [usuarioLoad, if_neg (by rw [he]; exact Bool.false_ne_true)]

lemma projetoLoad_ok {body d : Jobj} (h : projetoLoad body = .ok d) :
    projetoErrs body = [] ∧ d = projetoData body := by
  rw [projetoLoad] at h
  by_cases he : (projetoErrs body).isEmpty
  · rw [if_pos he] at h
    injection h with h
    exact ⟨List.isEmpty_iff.mp he, h.symm⟩
  · rw [if_neg he] at h; cases h

/-! Claim theorems. -/

/-- C1: the claim says a create/update whose SQL statement fails with a
storage error returns HTTP 500 with the fixed generic message and logs the
error server-side. The code contradicts this: the `except sqlite3.Error`
clause guards only `schema.load`, so a storage failure at the INSERT (e.g.
a UNIQUE-email violation) escapes the handler as an uncaught exception —
the handler neither builds the generic 500 body nor writes the log line. -/
theorem storage_error_escapes_handler :
    (criar_usuario dbEmpty exUsuarioBody true).outcome = .crash "sqlite3.Error" ∧
    (criar_usuario dbEmpty exUsuarioBody true).logged = [] ∧
    (criar_usuario dbEmpty exUsuarioBody true).outcome ≠
      .resp 500 (.msg "Erro interno do servidor") ∧
    (criar_projeto dbEmpty exProjetoBody true).outcome = .crash "sqlite3.Error" ∧
    (criar_projeto dbEmpty exProjetoBody true).logged = [] := by
  refine ⟨rfl, rfl, by decide, rfl, rfl⟩

/-- C2 counterexample: the payload containing only `nome` passes
`ProjetoSchema` validation (the other fields are optional), yet create does
not return 201 — building the bound-value tuple raises `KeyError` on the
absent `descricao` key. -/
theorem create_optional_omitted_keyerror :
    projetoLoad [("nome", .jstr "P1")] = .ok [("nome", .jstr "P1")] ∧
    (criar_projeto dbEmpty [("nome", .jstr "P1")] false).outcome = .crash "KeyError" ∧
    (criar_projeto dbEmpty [("nome", .jstr "P1")] false).outcome ≠
      .resp 201 (.msg "Projeto criado com sucesso!") := by
  refine ⟨rfl, rfl, by decide⟩

/-- C3 counterexample: a valid project body with an extra `id` field is NOT
processed as if `id` were absent — the `dump_only` id counts as an unknown
field, so the request is rejected with 400 while the same body without `id`
yields 201. -/
theorem client_id_rejected_not_ignored :
    (criar_projeto dbEmpty (exProjetoBody ++ [("id", .jint 7)]) false).outcome =
      .resp 400 (.errs [("id", ["Unknown field."])]) ∧
    (criar_projeto dbEmpty exProjetoBody false).outcome =
      .resp 201 (.msg "Projeto criado com sucesso!") ∧
    (criar_projeto dbEmpty (exProjetoBody ++ [("id", .jint 7)]) false).db = dbEmpty := by
  refine ⟨rfl, rfl, rfl⟩

/-- C4 counterexample: against an identifier absent from the store, update
with a schema-valid body that omits the optional fields does not return the
200 success response — it crashes with `KeyError` exactly as it would
against an existing identifier. -/
theorem update_absent_id_partial_body_crashes :
    projetoLoad [("nome", .jstr "X1")] = .ok [("nome", .jstr "X1")] ∧
    (atualizar_projeto dbEmpty 1 [("nome", .jstr "X1")] false).outcome = .crash "KeyError" ∧
    statusOf (atualizar_projeto dbEmpty 1 [("nome", .jstr "X1")] false).outcome ≠ some 200 := by
  refine ⟨rfl, rfl, by decide⟩

/-- C10: a create or update whose body fails validation is answered with the
400 error map before any database connection is opened; the store is left
exactly as it was. -/
theorem validation_failure_no_db :
    ∀ (t : Tabela) (db : DB) (dbFail : Bool) (body : Jobj) (i : Nat) (e : Errs),
      loadOf t body = .error e →
      dispatch db dbFail t (.criar body) =
        ⟨.resp 400 (.errs e), db, 0, [], [.validationError e]⟩ ∧
      dispatch db dbFail t (.atualizar i body) =
        ⟨.resp 400 (.errs e), db, 0, [], [.validationError e]⟩ := by
  intro t db f body i e h
  cases t with
  | TB_PROJETOS =>
    simp only [loadOf] at h
    exact ⟨by simp [dispatch, criar_projeto, h],
           by simp [dispatch, atualizar_projeto, h]⟩
  | TB_TAREFAS =>
    simp only [loadOf] at h
    exact ⟨by simp [dispatch, criar_tarefa, h],
           by simp [dispatch, atualizar_tarefa, h]⟩
  | TB_USUARIOS =>
    simp only [loadOf] at h
    exact ⟨by simp [dispatch, criar_usuario, h],
           by simp [dispatch, atualizar_usuario, h]⟩

/-- Witness for C10: the empty project body is missing `nome`, and create
answers 400 with zero connections opened. -/
theorem validation_failure_no_db_witness :
    dispatch dbEmpty false .TB_PROJETOS (.criar []) =
      ⟨.resp 400 (.errs [("nome", ["Missing data for required field."])]),
       dbEmpty, 0, [], [.validationError
         [("nome", ["Missing data for required field."])]]⟩ :=
  (validation_failure_no_db .TB_PROJETOS dbEmpty false [] 1 _ rfl).1

lemma mem_fieldErrs {key k1 : String} {ms : List String} {r : FR}
    (h : (k1, ms) ∈ fieldErrs key r) : k1 = key := by
  cases r with
  | ok v => cases h
  | absent => cases h
  | errs m2 =>
    rw [fieldErrs] at h
    injection List.mem_singleton.mp h with h1 h2

/-- A body carrying an `id` key fails every schema load with an
`Unknown field.` error keyed to `id`. -/
lemma load_unknown_id (t : Tabela) (body : Jobj) (v : JVal)
    (h : lookupJ body "id" = some v) :
    ∃ e, loadOf t body = .error e ∧ ("id", ["Unknown field."]) ∈ e := by
  cases t with
  | TB_PROJETOS =>
    have hm := mem_unknownErrs ["nome", "descricao", "data_inicio", "data_fim"]
      h (by decide)
    have hmm : ("id", ["Unknown field."]) ∈ projetoErrs body :=
      List.mem_append_right _ hm
    exact ⟨projetoErrs body, projetoLoad_error_of_mem hmm, hmm⟩
  | TB_TAREFAS =>
    have hm := mem_unknownErrs ["titulo", "descricao", "status", "prioridade",
      "data_vencimento", "projeto_id", "responsavel_id"] h (by decide)
    have hmm : ("id", ["Unknown field."]) ∈ tarefaErrs body :=
      List.mem_append_right _ hm
    exact ⟨tarefaErrs body, tarefaLoad_error_of_mem hmm, hmm⟩
  | TB_USUARIOS =>
    have hm := mem_unknownErrs ["nome", "email", "senha"] h (by decide)
    have hmm : ("id", ["Unknown field."]) ∈ usuarioErrs body :=
      List.mem_append_right _ hm
    exact ⟨usuarioErrs body, usuarioLoad_error_of_mem hmm, hmm⟩

/-- A body with no `id` key never produces an `id`-keyed validation error:
`id` is not required on input. -/
lemma no_id_error (t : Tabela) (body : Jobj) (e : Errs) (ms : List String)
    (hnone : lookupJ body "id" = none) (hl : loadOf t body = .error e) :
    ("id", ms) ∉ e := by
  intro hmem
  cases t with
  | TB_PROJETOS =>
    simp only [loadOf, projetoLoad] at hl
    split at hl
    · cases hl
    · injection hl with hl
      subst hl
      simp only [projetoErrs, List.mem_append] at hmem
      rcases hmem with ((((h | h) | h) | h) | h) <;>
        first
        | exact absurd (mem_fieldErrs h) (by decide)
        | exact not_mem_unknownErrs _ hnone ms h
  | TB_TAREFAS =>
    simp only [loadOf, tarefaLoad] at hl
    split at hl
    · cases hl
    · injection hl with hl
      subst hl
      simp only [tarefaErrs, List.mem_append] at hmem
      rcases hmem with (((((((h | h) | h) | h) | h) | h) | h) | h) <;>
        first
        | exact absurd (mem_fieldErrs h) (by decide)
        | exact not_mem_unknownErrs _ hnone ms h
  | TB_USUARIOS =>
    simp only [loadOf, usuarioLoad] at hl
    split at hl
    · cases hl
    · injection hl with hl
      subst hl
      simp only [usuarioErrs, List.mem_append] at hmem
      rcases hmem with (((h | h) | h) | h) <;>
        first
        | exact absurd (mem_fieldErrs h) (by decide)
        | exact not_mem_unknownErrs _ hnone ms h

/-- C3 (amended): a client-supplied `id` in a create or update body is never
ignored — validation rejects the request with 400 carrying an
`Unknown field.` error for `id` and the store is unchanged, so the id never
drives the write; conversely a body without `id` never yields an `id`-keyed
error, so `id` is never required on input. -/
theorem client_id_causes_400 :
    ∀ (t : Tabela) (db : DB) (dbFail : Bool) (body : Jobj) (i : Nat),
      (∀ v, lookupJ body "id" = some v →
        (∃ e, (dispatch db dbFail t (.criar body)).outcome = .resp 400 (.errs e) ∧
              ("id", ["Unknown field."]) ∈ e) ∧
        (dispatch db dbFail t (.criar body)).db = db ∧
        (∃ e, (dispatch db dbFail t (.atualizar i body)).outcome =
              .resp 400 (.errs e) ∧ ("id", ["Unknown field."]) ∈ e) ∧
        (dispatch db dbFail t (.atualizar i body)).db = db) ∧
      (lookupJ body "id" = none → ∀ e ms, loadOf t body = .error e →
        ("id", ms) ∉ e) := by
  intro t db f body i
  refine ⟨?_, fun hn e ms hl => no_id_error t body e ms hn hl⟩
  intro v h
  obtain ⟨e, hl, hm⟩ := load_unknown_id t body v h
  cases t with
  | TB_PROJETOS =>
    simp only [loadOf] at hl
    exact ⟨⟨e, by simp [dispatch, criar_projeto, hl], hm⟩,
           by simp [dispatch, criar_projeto, hl],
           ⟨e, by simp [dispatch, atualizar_projeto, hl], hm⟩,
           by simp [dispatch, atualizar_projeto, hl]⟩
  | TB_TAREFAS =>
    simp only [loadOf] at hl
    exact ⟨⟨e, by simp [dispatch, criar_tarefa, hl], hm⟩,
           by simp [dispatch, criar_tarefa, hl],
           ⟨e, by simp [dispatch, atualizar_tarefa, hl], hm⟩,
           by simp [dispatch, atualizar_tarefa, hl]⟩
  | TB_USUARIOS =>
    simp only [loadOf] at hl
    exact ⟨⟨e, by simp [dispatch, criar_usuario, hl], hm⟩,
           by simp [dispatch, criar_usuario, hl],
           ⟨e, by simp [dispatch, atualizar_usuario, hl], hm⟩,
           by simp [dispatch, atualizar_usuario, hl]⟩

/-- Witness for C3: the example project body extended with `id` is refused
with 400 and leaves the empty store untouched. -/
theorem client_id_causes_400_witness :
    (∃ e, (dispatch dbEmpty false .TB_PROJETOS
            (.criar (exProjetoBody ++ [("id", .jint 7)]))).outcome =
          .resp 400 (.errs e) ∧ ("id", ["Unknown field."]) ∈ e) ∧
    (dispatch dbEmpty false .TB_PROJETOS
      (.criar (exProjetoBody ++ [("id", .jint 7)]))).db = dbEmpty := by
  obtain ⟨h1, h2, _, _⟩ :=
    (client_id_causes_400 .TB_PROJETOS dbEmpty false
      (exProjetoBody ++ [("id", JVal.jint 7)]) 1).1 (JVal.jint 7) rfl
  exact ⟨h1, h2⟩

/-- C6: any user payload whose `email` value is a malformed string or whose
`senha` value is a string shorter than 6 characters is rejected by create
with 400 and an untouched store; on the spec's two-defect payload the 400
body carries an error entry for `email` and one for `senha`. -/
theorem usuario_invalid_email_or_senha_400 :
    (∀ (db : DB) (dbFail : Bool) (body : Jobj),
      ((∃ s, lookupJ body "email" = some (.jstr s) ∧ isValidEmail s = false) ∨
       (∃ p, lookupJ body "senha" = some (.jstr p) ∧ p.length < 6)) →
      (∃ e, (criar_usuario db body dbFail).outcome = .resp 400 (.errs e)) ∧
      (criar_usuario db body dbFail).db = db) ∧
    (criar_usuario dbEmpty exUsuarioBadBody false).outcome =
      .resp 400 (.errs [("email", ["Not a valid email address."]),
                        ("senha", ["Shorter than minimum length 6."])]) := by
  constructor
  · intro db f body hcond
    have hl : usuarioLoad body = .error (usuarioErrs body) := by
      rcases hcond with ⟨s, hE, hv⟩ | ⟨p, hS, hp⟩
      · have hfe : fieldErrs "email" (desEmail true (lookupJ body "email")) =
            [("email", ["Not a valid email address."])] := by
          rw [hE]; simp [desEmail, hv, fieldErrs]
        apply usuarioLoad_error_of_mem
          (p := ("email", ["Not a valid email address."]))
        simp only [usuarioErrs, List.mem_append]
        exact Or.inl (Or.inl (Or.inr
          (by rw [hfe]; exact List.mem_singleton.mpr rfl)))
      · have hnle : ¬ (6 ≤ p.length) := Nat.not_le.mpr hp
        have hfs : fieldErrs "senha"
            (desString true (lengthMin6) (lookupJ body "senha")) =
            [("senha", ["Shorter than minimum length 6."])] := by
          rw [hS]; simp [desString, lengthMin6, hnle, fieldErrs]
        apply usuarioLoad_error_of_mem
          (p := ("senha", ["Shorter than minimum length 6."]))
        simp only [usuarioErrs, List.mem_append]
        exact Or.inl (Or.inr (by rw [hfs]; exact List.mem_singleton.mpr rfl))
    exact ⟨⟨usuarioErrs body, by simp [criar_usuario, hl]⟩,
           by simp [criar_usuario, hl]⟩
  · rfl

/-- Witness for C6: the two-defect payload is refused with 400 and the
store is untouched. -/
theorem usuario_invalid_email_or_senha_400_witness :
    (∃ e, (criar_usuario dbEmpty exUsuarioBadBody false).outcome =
        .resp 400 (.errs e)) ∧
    (criar_usuario dbEmpty exUsuarioBadBody false).db = dbEmpty :=
  usuario_invalid_email_or_senha_400.1 dbEmpty false exUsuarioBadBody
    (Or.inl ⟨"not-an-email", rfl, rfl⟩)

/-- C7: any task payload whose `status` value is outside the allowed set
(case-sensitive; non-strings included) is rejected by create with 400
carrying a `status` error entry, and no row is inserted: the store and the
list of executed statements stay empty of effects. -/
theorem tarefa_status_invalid_400 :
    ∀ (db : DB) (dbFail : Bool) (body : Jobj) (v : JVal),
      lookupJ body "status" = some v →
      (∀ s, v = .jstr s →
        s ∉ (["Pendente", "Em andamento", "Concluída"] : List String)) →
      (∃ e, (criar_tarefa db body dbFail).outcome = .resp 400 (.errs e) ∧
            ∃ ms, ("status", ms) ∈ e) ∧
      (criar_tarefa db body dbFail).db = db ∧
      (criar_tarefa db body dbFail).stmts = [] := by
  intro db f body v hS hout
  have hst : ∃ ms, desString false
      (oneOf ["Pendente", "Em andamento", "Concluída"])
      (lookupJ body "status") = .errs ms := by
    rw [hS]
    cases v with
    | jstr s =>
      have hnm := hout s rfl
      have hone : oneOf ["Pendente", "Em andamento", "Concluída"] s =
          ["Must be one of: " ++
           String.intercalate ", " ["Pendente", "Em andamento", "Concluída"] ++
           "."] := by
        rw [oneOf, if_neg hnm]
      exact ⟨_, by simp only [desString]; rw [hone]⟩
    | jint n => exact ⟨_, rfl⟩
    | jnull => exact ⟨_, rfl⟩
  obtain ⟨ms, hms⟩ := hst
  have hmem : ("status", ms) ∈ tarefaErrs body := by
    simp only [tarefaErrs, List.mem_append]
    exact Or.inl (Or.inl (Or.inl (Or.inl (Or.inl (Or.inr
      (by rw [hms]; exact List.mem_singleton.mpr rfl))))))
  have hl : tarefaLoad body = .error (tarefaErrs body) :=
    tarefaLoad_error_of_mem hmem
  exact ⟨⟨tarefaErrs body, by simp [criar_tarefa, hl], ms, hmem⟩,
         by simp [criar_tarefa, hl], by simp [criar_tarefa, hl]⟩

/-- Witness for C7: status value `Feito` is outside the allowed set; create
answers 400 with a `status` error and inserts nothing. -/
theorem tarefa_status_invalid_400_witness :
    (∃ e, (criar_tarefa dbEmpty
        [("titulo", JVal.jstr "T"), ("status", JVal.jstr "Feito")] false).outcome =
        .resp 400 (.errs e) ∧ ∃ ms, ("status", ms) ∈ e) ∧
    (criar_tarefa dbEmpty
        [("titulo", JVal.jstr "T"), ("status", JVal.jstr "Feito")] false).db =
      dbEmpty ∧
    (criar_tarefa dbEmpty
        [("titulo", JVal.jstr "T"), ("status", JVal.jstr "Feito")] false).stmts =
      [] :=
  tarefa_status_invalid_400 dbEmpty false
    [("titulo", JVal.jstr "T"), ("status", JVal.jstr "Feito")]
    (JVal.jstr "Feito") rfl
    (by intro s hs; injection hs with h; subst h; decide)

/-- C8: for every store state, each entity's list handler returns 200 with
exactly one field-map per row — all rows, unfiltered and in table order —
and leaves the store unchanged. -/
theorem listar_returns_all_rows :
    ∀ db : DB,
      (listar_projetos db false).outcome =
        .resp 200 (.arr (db.projetos.map projetoToMap)) ∧
      (listar_projetos db false).db = db ∧
      (listar_tarefas db false).outcome =
        .resp 200 (.arr (db.tarefas.map tarefaToMap)) ∧
      (listar_tarefas db false).db = db ∧
      (listar_usuarios db false).outcome =
        .resp 200 (.arr (db.usuarios.map usuarioToMap)) ∧
      (listar_usuarios db false).db = db :=
  fun _ => ⟨rfl, rfl, rfl, rfl, rfl, rfl⟩

/-- C5: delete is idempotent in effect — for every entity and identifier,
deleting twice returns the same success response both times and the second
delete leaves the store exactly as after the first. -/
theorem delete_idempotent :
    ∀ (t : Tabela) (db : DB) (i : Nat),
      (∃ m, (dispatch db false t (.excluir i)).outcome = .resp 200 (.msg m) ∧
        (dispatch (dispatch db false t (.excluir i)).db false t
          (.excluir i)).outcome = .resp 200 (.msg m)) ∧
      (dispatch (dispatch db false t (.excluir i)).db false t (.excluir i)).db =
        (dispatch db false t (.excluir i)).db := by
  intro t db i
  cases t with
  | TB_PROJETOS =>
    refine ⟨⟨"Projeto excluído com sucesso!", rfl, rfl⟩, ?_⟩
    simp only [dispatch, excluir_projeto, Bool.false_eq_true, if_false]
    rw [DB.mk.injEq]
    exact ⟨filter_idem _ _, rfl, rfl, rfl, rfl, rfl⟩
  | TB_TAREFAS =>
    refine ⟨⟨"Tarefa excluída com sucesso!", rfl, rfl⟩, ?_⟩
    simp only [dispatch, excluir_tarefa, Bool.false_eq_true, if_false]
    rw [DB.mk.injEq]
    exact ⟨rfl, filter_idem _ _, rfl, rfl, rfl, rfl⟩
  | TB_USUARIOS =>
    refine ⟨⟨"Usuário excluído com sucesso!", rfl, rfl⟩, ?_⟩
    simp only [dispatch, excluir_usuario, Bool.false_eq_true, if_false]
    rw [DB.mk.injEq]
    exact ⟨rfl, rfl, filter_idem _ _, rfl, rfl, rfl⟩

/-- C9: every routed request executes at most one SQL statement, every
statement it executes targets its own entity's table, and the other two
entities' tables are left exactly as they were. -/
theorem handler_single_table_frame :
    ∀ (t : Tabela) (op : Op) (db : DB) (dbFail : Bool),
      (dispatch db dbFail t op).stmts.length ≤ 1 ∧
      (∀ t2 ∈ (dispatch db dbFail t op).stmts, t2 = t) ∧
      (∀ t2, t2 ≠ t → tableUnchanged t2 db (dispatch db dbFail t op).db) := by
  intro t op db f
  obtain ⟨hs, hu, _⟩ := dispatch_cases t op db f
  refine ⟨?_, ?_, hu⟩
  · rcases hs with h | h <;> rw [h] <;> simp
  · intro t2 hmem
    rcases hs with h | h <;> rw [h] at hmem
    · cases hmem
    · exact List.mem_singleton.mp hmem

/-- Witness for C9: a project create on the empty store leaves the task and
user tables unchanged. -/
theorem handler_single_table_frame_witness :
    tableUnchanged .TB_TAREFAS dbEmpty
      (dispatch dbEmpty false .TB_PROJETOS (.criar exProjetoBody)).db ∧
    tableUnchanged .TB_USUARIOS dbEmpty
      (dispatch dbEmpty false .TB_PROJETOS (.criar exProjetoBody)).db :=
  ⟨(handler_single_table_frame .TB_PROJETOS (.criar exProjetoBody) dbEmpty
      false).2.2 .TB_TAREFAS (by decide),
   (handler_single_table_frame .TB_PROJETOS (.criar exProjetoBody) dbEmpty
      false).2.2 .TB_USUARIOS (by decide)⟩

/-- A validated project record holding all four keys is exactly the
submitted four fields, and each value is the one submitted in the body. -/
lemma projetoData_shape (body : Jobj) (d : Jobj) (vn vd vi vf : JVal)
    (hdEq : d = projetoData body)
    (hn : lookupJ d "nome" = some vn)
    (hdc : lookupJ d "descricao" = some vd)
    (hdi : lookupJ d "data_inicio" = some vi)
    (hdf : lookupJ d "data_fim" = some vf) :
    d = [("nome", vn), ("descricao", vd), ("data_inicio", vi), ("data_fim", vf)] ∧
    lookupJ body "nome" = some vn ∧
    lookupJ body "descricao" = some vd ∧
    lookupJ body "data_inicio" = some vi ∧
    lookupJ body "data_fim" = some vf := by
  rw [projetoData] at hdEq
  rcases h1 : desString true length1to255 (lookupJ body "nome") with v1 | _ | m1 <;>
    rw [h1] at hdEq <;>
    rcases h2 : desString false (fun _ => []) (lookupJ body "descricao") with v2 | _ | m2 <;>
    rw [h2] at hdEq <;>
    rcases h3 : desDate (lookupJ body "data_inicio") with v3 | _ | m3 <;>
    rw [h3] at hdEq <;>
    rcases h4 : desDate (lookupJ body "data_fim") with v4 | _ | m4 <;>
    rw [h4] at hdEq <;>
    subst hdEq <;>
    simp only [fieldEntry, List.append_assoc, List.cons_append, List.nil_append,
      lookupJ] at hn hdc hdi hdf <;>
    simp at hn hdc hdi hdf <;>
    (subst hn; subst hdc; subst hdi; subst hdf;
     exact ⟨rfl, desString_ok h1, desString_ok h2, desDate_ok h3, desDate_ok h4⟩)

/-- C2 (amended): every project payload that passes validation AND carries
all four schema fields yields 201 on create, and the subsequent list shows
the old rows followed by a record carrying the server-assigned id and every
submitted field value. -/
theorem create_full_payload_lists_record :
    ∀ (db : DB) (body d : Jobj) (vn vd vi vf : JVal),
      projetoLoad body = .ok d →
      lookupJ d "nome" = some vn →
      lookupJ d "descricao" = some vd →
      lookupJ d "data_inicio" = some vi →
      lookupJ d "data_fim" = some vf →
      (criar_projeto db body false).outcome =
        .resp 201 (.msg "Projeto criado com sucesso!") ∧
      lookupJ body "nome" = some vn ∧
      lookupJ body "descricao" = some vd ∧
      lookupJ body "data_inicio" = some vi ∧
      lookupJ body "data_fim" = some vf ∧
      (listar_projetos (criar_projeto db body false).db false).outcome =
        .resp 200 (.arr (db.projetos.map projetoToMap ++
          [[("id", JVal.jint db.seqProjetos), ("nome", vn), ("descricao", vd),
            ("data_inicio", vi), ("data_fim", vf)]])) := by
  intro db body d vn vd vi vf hload hn hdc hdi hdf
  obtain ⟨hE, hdEq⟩ := projetoLoad_ok hload
  obtain ⟨hdLit, hbn, hbd, hbi, hbf⟩ :=
    projetoData_shape body d vn vd vi vf hdEq hn hdc hdi hdf
  subst hdLit
  have hv : projetoVals
      [("nome", vn), ("descricao", vd), ("data_inicio", vi), ("data_fim", vf)] =
      some (vn, vd, vi, vf) := by
    simp [projetoVals, lookupJ]
  refine ⟨?_, hbn, hbd, hbi, hbf, ?_⟩
  · simp [criar_projeto, hload, hv]
  · simp [criar_projeto, hload, hv, listar_projetos, List.map_append, projetoToMap]

/-- Witness for C2: the spec's example payload creates with 201 and its
`nome` value is exactly the submitted one. -/
theorem create_full_payload_lists_record_witness :
    (criar_projeto dbEmpty exProjetoBody false).outcome =
      .resp 201 (.msg "Projeto criado com sucesso!") ∧
    lookupJ exProjetoBody "nome" = some (JVal.jstr "P1") := by
  obtain ⟨h1, h2, _⟩ := create_full_payload_lists_record dbEmpty exProjetoBody
    [("nome", JVal.jstr "P1"), ("descricao", JVal.jstr "d"),
     ("data_inicio", JVal.jstr "2024-01-01"), ("data_fim", JVal.jstr "2024-02-01")]
    (JVal.jstr "P1") (JVal.jstr "d") (JVal.jstr "2024-01-01")
    (JVal.jstr "2024-02-01") rfl rfl rfl rfl rfl
  exact ⟨h1, h2⟩

/-- C4 (amended): for every entity, update with a valid body carrying every
schema field and delete both return the one fixed 200 success response
whether or not the identifier exists; when the identifier is absent the
store is left unchanged; and no handler ever produces a 404. -/
theorem absent_id_update_delete_success :
    (∀ (db : DB) (i : Nat) (body d : Jobj) (vn vd vi vf : JVal),
      projetoLoad body = .ok d →
      lookupJ d "nome" = some vn → lookupJ d "descricao" = some vd →
      lookupJ d "data_inicio" = some vi → lookupJ d "data_fim" = some vf →
      (atualizar_projeto db i body false).outcome =
        .resp 200 (.msg "Projeto atualizado com sucesso!") ∧
      (i ∉ db.projetos.map ProjetoRow.id →
        (atualizar_projeto db i body false).db = db)) ∧
    (∀ (db : DB) (i : Nat) (body d : Jobj) (vt vd vs vp vv vpr vr : JVal),
      tarefaLoad body = .ok d →
      lookupJ d "titulo" = some vt → lookupJ d "descricao" = some vd →
      lookupJ d "status" = some vs → lookupJ d "prioridade" = some vp →
      lookupJ d "data_vencimento" = some vv →
      lookupJ d "projeto_id" = some vpr →
      lookupJ d "responsavel_id" = some vr →
      (atualizar_tarefa db i body false).outcome =
        .resp 200 (.msg "Tarefa atualizada com sucesso!") ∧
      (i ∉ db.tarefas.map TarefaRow.id →
        (atualizar_tarefa db i body false).db = db)) ∧
    (∀ (db : DB) (i : Nat) (body d : Jobj) (vn ve vs : JVal),
      usuarioLoad body = .ok d →
      lookupJ body "nome" = some vn → lookupJ body "email" = some ve →
      lookupJ body "senha" = some vs →
      (atualizar_usuario db i body false).outcome =
        .resp 200 (.msg "Usuário atualizado com sucesso!") ∧
      (i ∉ db.usuarios.map UsuarioRow.id →
        (atualizar_usuario db i body false).db = db)) ∧
    (∀ (db : DB) (i : Nat),
      (excluir_projeto db i false).outcome =
        .resp 200 (.msg "Projeto excluído com sucesso!") ∧
      (i ∉ db.projetos.map ProjetoRow.id →
        (excluir_projeto db i false).db = db)) ∧
    (∀ (db : DB) (i : Nat),
      (excluir_tarefa db i false).outcome =
        .resp 200 (.msg "Tarefa excluída com sucesso!") ∧
      (i ∉ db.tarefas.map TarefaRow.id → (excluir_tarefa db i false).db = db)) ∧
    (∀ (db : DB) (i : Nat),
      (excluir_usuario db i false).outcome =
        .resp 200 (.msg "Usuário excluído com sucesso!") ∧
      (i ∉ db.usuarios.map UsuarioRow.id →
        (excluir_usuario db i false).db = db)) ∧
    (∀ (t : Tabela) (op : Op) (db : DB) (dbFail : Bool),
      statusOf (dispatch db dbFail t op).outcome ≠ some 404) := by
  refine ⟨?_, ?_, ?_, ?_, ?_, ?_, fun t op db f => (dispatch_cases t op db f).2.2⟩
  · intro db i body d vn vd vi vf hload hn hdc hdi hdf
    have hv : projetoVals d = some (vn, vd, vi, vf) := by
      simp [projetoVals, hn, hdc, hdi, hdf]
    refine ⟨by simp [atualizar_projeto, hload, hv], fun hid => ?_⟩
    have hdb : (atualizar_projeto db i body false).db =
        { db with projetos := db.projetos.map (fun r => if r.id = i then { r with nome := vn, descricao := vd, data_inicio := vi, data_fim := vf } else r) } := by
      simp [atualizar_projeto, hload, hv]
    rw [hdb, map_ite_id _ hid]
  · intro db i body d vt vd vs vp vv vpr vr hload h1 h2 h3 h4 h5 h6 h7
    have hv : tarefaVals d = some (vt, vd, vs, vp, vv, vpr, vr) := by
      simp [tarefaVals, h1, h2, h3, h4, h5, h6, h7]
    refine ⟨by simp [atualizar_tarefa, hload, hv], fun hid => ?_⟩
    have hdb : (atualizar_tarefa db i body false).db =
        { db with tarefas := db.tarefas.map (fun r => if r.id = i then { r with titulo := vt, descricao := vd, status := vs, prioridade := vp, data_vencimento := vv, projeto_id := vpr, responsavel_id := vr } else r) } := by
      simp [atualizar_tarefa, hload, hv]
    rw [hdb, map_ite_id _ hid]
  · intro db i body d vn ve vs hload h1 h2 h3
    have hv : usuarioVals body = some (vn, ve, vs) := by
      simp [usuarioVals, h1, h2, h3]
    refine ⟨by simp [atualizar_usuario, hload, hv], fun hid => ?_⟩
    have hdb : (atualizar_usuario db i body false).db =
        { db with usuarios := db.usuarios.map (fun r => if r.id = i then { r with nome := vn, email := ve, senha := vs } else r) } := by
      simp [atualizar_usuario, hload, hv]
    rw [hdb, map_ite_id _ hid]
  · intro db i
    refine ⟨rfl, fun hid => ?_⟩
    have hdb : (excluir_projeto db i false).db =
        { db with projetos := db.projetos.filter (fun r => r.id ≠ i) } := rfl
    rw [hdb, filter_ne_id hid]
  · intro db i
    refine ⟨rfl, fun hid => ?_⟩
    have hdb : (excluir_tarefa db i false).db =
        { db with tarefas := db.tarefas.filter (fun r => r.id ≠ i) } := rfl
    rw [hdb, filter_ne_id hid]
  · intro db i
    refine ⟨rfl, fun hid => ?_⟩
    have hdb : (excluir_usuario db i false).db =
        { db with usuarios := db.usuarios.filter (fun r => r.id ≠ i) } := rfl
    rw [hdb, filter_ne_id hid]

/-- Witness for C4: on the empty store, id 1 is absent; update with a full
valid body and delete both answer 200 and leave the store unchanged. -/
theorem absent_id_update_delete_success_witness :
    (atualizar_projeto dbEmpty 1 exProjetoBody false).outcome =
      .resp 200 (.msg "Projeto atualizado com sucesso!") ∧
    (atualizar_projeto dbEmpty 1 exProjetoBody false).db = dbEmpty ∧
    (excluir_projeto dbEmpty 1 false).outcome =
      .resp 200 (.msg "Projeto excluído com sucesso!") ∧
    (excluir_projeto dbEmpty 1 false).db = dbEmpty := by
  obtain ⟨h200, hdb⟩ := absent_id_update_delete_success.1 dbEmpty 1 exProjetoBody
    [("nome", JVal.jstr "P1"), ("descricao", JVal.jstr "d"),
     ("data_inicio", JVal.jstr "2024-01-01"), ("data_fim", JVal.jstr "2024-02-01")]
    (JVal.jstr "P1") (JVal.jstr "d") (JVal.jstr "2024-01-01")
    (JVal.jstr "2024-02-01") rfl rfl rfl rfl rfl
  obtain ⟨h200d, hdbd⟩ := absent_id_update_delete_success.2.2.2.1 dbEmpty 1
  exact ⟨h200, hdb (by simp [dbEmpty]), h200d, hdbd (by simp [dbEmpty])⟩
